import Mathlib

/-!
Shallow embedding of the ZOOM L-8 USB audio driver PCM engine (src/pcm.c).

The C source operates on 512-byte URB packets viewed as 128 little-endian
32-bit words; every buffer access in the transcoder is a `u32` access, so
buffers are modelled at word granularity as functions `Nat → Int`
(word index to 32-bit sample value).  The control-flow of each C loop is
reproduced exactly, including the interplay of the inner `i++` increments
with the outer `for` increment.
-/

set_option maxRecDepth 10000
set_option maxHeartbeats 1600000

/-- PCM_URB_SIZE from src/pcm.c: one URB packet is 512 bytes = 128 words. -/
def PCM_URB_SIZE : Nat := 512

/-- PCM_N_URBS from src/pcm.c. -/
def PCM_N_URBS : Nat := 4

/-- errno constants used by the driver (positive magnitudes; the code
returns their negations). -/
def ENOENT : Int := 2
def EIO_errno : Int := 5
def ENODEV : Int := 19
def EINVAL : Int := 22
def EPIPE : Int := 32
def ECONNRESET : Int := 104
def ESHUTDOWN : Int := 108

/-- ALSA trigger command codes (sound/asound.h). -/
def SNDRV_PCM_TRIGGER_STOP : Nat := 0
def SNDRV_PCM_TRIGGER_START : Nat := 1
def SNDRV_PCM_TRIGGER_PAUSE_PUSH : Nat := 3
def SNDRV_PCM_TRIGGER_PAUSE_RELEASE : Nat := 4

/-- SNDRV_PCM_POS_XRUN, the overrun sentinel `(snd_pcm_uframes_t)-1`
on a 64-bit host. -/
def SNDRV_PCM_POS_XRUN : Nat := 2 ^ 64 - 1

/-- Pointwise functional update of a word buffer (the effect of one
`((u32 *)dest)[a] = v` store). -/
def updFn (f : Nat → Int) (a : Nat) (v : Int) : Nat → Int :=
  fun x => if x = a then v else f x

/-! ## memcpy_pcm_playback (src/pcm.c lines 241-255)

```c
static void memcpy_pcm_playback(u8 *dest, u8 *src, u8 ch)
{
    unsigned int i, c, o = 0;
    for (i = 0; i < (PCM_URB_SIZE/4); i++) {
        if (i % 32) {
            ((u32 *)dest)[i] = 0; /* Padding */
            continue;
        }
        for (c = 0; c < ch; c++) {
            ((u32 *)dest)[i++] = ((u32 *)src)[o++];
        }
    }
}
```

The write trace is a list of `(destination word index, what is stored)`
where `some o` means the source word `o` and `none` means the literal 0
padding word.  Note that after the inner loop finishes at `i = slot + ch`
the outer `i++` fires, so the word at index `slot + ch` is never written.
-/

/-- The inner `for (c = 0; c < ch; c++) dest[i++] = src[o++];` loop of
`memcpy_pcm_playback`, recursing on the remaining count `c`.
Returns (emitted writes, final i, final o). -/
def playbackInner (i o : Nat) : Nat → List (Nat × Option Nat) × Nat × Nat
  | 0 => ([], i, o)
  | c + 1 =>
    let r := playbackInner (i + 1) (o + 1) c
    ((i, some o) :: r.1, r.2)

/-- The outer `for (i = 0; i < 128; i++)` loop of `memcpy_pcm_playback`.
`fuel` bounds the number of outer iterations; since `i` strictly increases
each iteration, fuel 128 is exact. -/
def playbackOuter (ch : Nat) : Nat → Nat → Nat → List (Nat × Option Nat)
  | 0, _, _ => []
  | fuel + 1, i, o =>
    if i < PCM_URB_SIZE / 4 then
      if i % 32 ≠ 0 then
        (i, none) :: playbackOuter ch fuel (i + 1) o
      else
        let r := playbackInner i o ch
        r.1 ++ playbackOuter ch fuel (r.2.1 + 1) r.2.2
    else []

/-- Write trace of `memcpy_pcm_playback` for channel count `ch`. -/
def memcpy_pcm_playback_trace (ch : Nat) : List (Nat × Option Nat) :=
  playbackOuter ch (PCM_URB_SIZE / 4) 0 0

/-- `memcpy_pcm_playback dest src ch`: the packet contents after running
the encoder, obtained by replaying the write trace over `dest`. -/
def memcpy_pcm_playback (dest src : Nat → Int) (ch : Nat) : Nat → Int :=
  (memcpy_pcm_playback_trace ch).foldl
    (fun d pr => updFn d pr.1 (match pr.2 with | some o => src o | none => 0)) dest

/-! ## memcpy_pcm_capture (src/pcm.c lines 257-276)

```c
static void memcpy_pcm_capture(u8 *dest, u8 *src, u8 ch, unsigned int skip, unsigned int l)
{
    unsigned int i, c, o = 0;
    for (i = 0; i < (PCM_URB_SIZE/4); i++) {
        if (i % 32)
            continue;
        for (c = 0; c < ch; c++) {
            if (skip && i < skip/4) {
                i++;
                continue;
            }
            if (l && o >= l/4)
                return;
            ((u32 *)dest)[o++] = ((u32 *)src)[i++];
        }
    }
}
```

The write trace is a list of `(destination word index o, source word
index i)`.  The `return` aborts the whole function, modelled by the
Boolean early-return flag threaded through the inner loop.
-/

/-- The inner `for (c = 0; c < ch; c++)` loop of `memcpy_pcm_capture`.
Returns (emitted writes, final i, final o, early-return flag). -/
def captureInner (skip l : Nat) (i o : Nat) :
    Nat → List (Nat × Nat) × Nat × Nat × Bool
  | 0 => ([], i, o, false)
  | c + 1 =>
    if skip ≠ 0 ∧ i < skip / 4 then
      captureInner skip l (i + 1) o c
    else if l ≠ 0 ∧ o ≥ l / 4 then
      ([], i, o, true)
    else
      let r := captureInner skip l (i + 1) (o + 1) c
      ((o, i) :: r.1, r.2)

/-- The outer `for (i = 0; i < 128; i++)` loop of `memcpy_pcm_capture`. -/
def captureOuter (ch skip l : Nat) : Nat → Nat → Nat → List (Nat × Nat)
  | 0, _, _ => []
  | fuel + 1, i, o =>
    if i < PCM_URB_SIZE / 4 then
      if i % 32 ≠ 0 then
        captureOuter ch skip l fuel (i + 1) o
      else
        let r := captureInner skip l i o ch
        if r.2.2.2 then r.1
        else r.1 ++ captureOuter ch skip l fuel (r.2.1 + 1) r.2.2.1
    else []

/-- Write trace of `memcpy_pcm_capture` for channel count `ch`, byte skip
`skip` and byte limit `l` (each 0 meaning "off"). -/
def memcpy_pcm_capture_trace (ch skip l : Nat) : List (Nat × Nat) :=
  captureOuter ch skip l (PCM_URB_SIZE / 4) 0 0

/-- `memcpy_pcm_capture dest src ch skip l`: the destination contents after
running the decoder, obtained by replaying the write trace over `dest`. -/
def memcpy_pcm_capture (dest src : Nat → Int) (ch skip l : Nat) : Nat → Int :=
  (memcpy_pcm_capture_trace ch skip l).foldl
    (fun d pr => updFn d pr.1 (src pr.2)) dest

/-! ## Substream position advance (src/pcm.c lines 314-323 and 354-363)

Both completion paths end with

```c
    sub->dma_off += pcm_len;
    if (sub->dma_off >= pcm_buffer_size)
        sub->dma_off -= pcm_buffer_size;

    sub->period_off += pcm_len;
    if (sub->period_off >= alsa_rt->period_size) {
        sub->period_off %= alsa_rt->period_size;
        return true;
    }
    return false;
```
-/

/-- The shared offset-advance epilogue: returns
(new `dma_off`, new `period_off`, period-elapsed flag). -/
def zoom_pcm_advance (dma_off period_off pcm_len bs ps : Nat) : Nat × Nat × Bool :=
  let d := dma_off + pcm_len
  let d := if d ≥ bs then d - bs else d
  let p := period_off + pcm_len
  if p ≥ ps then (d, p % ps, true) else (d, p, false)

/-! ## zoom_pcm_capture (src/pcm.c lines 280-324)

The transcoder writes into the ALSA ring buffer are recorded as a list of
`(destination byte offset in the dma area, source word index in the URB)`:
a trace entry for destination word `o` of a `memcpy_pcm_capture` call whose
`dest` pointer is `dma_area + base` lands at byte offset `base + 4 * o`.
`pcm_len = 4 * channels * 4` as in the source.
-/

/-- Embedding of `zoom_pcm_capture`: given buffer size `bs`, period size
`ps`, channel count `ch` and current offsets, returns the ring-buffer
write trace together with `zoom_pcm_advance` of the offsets. -/
def zoom_pcm_capture (bs ps ch dma_off period_off : Nat) :
    List (Nat × Nat) × Nat × Nat × Bool :=
  let pcm_len := 4 * ch * 4
  let writes :=
    if dma_off + pcm_len ≤ bs then
      (memcpy_pcm_capture_trace ch 0 0).map (fun pr => (dma_off + 4 * pr.1, pr.2))
    else
      /- wrap around at end of ring buffer -/
      let len := bs - dma_off
      (memcpy_pcm_capture_trace ch 0 len).map (fun pr => (dma_off + 4 * pr.1, pr.2))
        ++ (memcpy_pcm_capture_trace ch len 0).map (fun pr => (4 * pr.1, pr.2))
  (writes, zoom_pcm_advance dma_off period_off pcm_len bs ps)

/-! ## zoom_pcm_playback (src/pcm.c lines 328-364)

The packet writes are recorded as `(packet word index, payload)` where
`some byteOff` is the ring-buffer word at byte offset `byteOff` and `none`
is a zero padding word.  In the non-wrapping branch the source pointer is
`dma_area + dma_off`, so source word `o` of the encoder trace is the ring
word at byte offset `dma_off + 4 * o`.  In the wrapping branch the source
performs no copy at all (the `else` arm only logs), so the trace is empty.
-/

/-- Embedding of `zoom_pcm_playback`: returns the packet write trace
together with `zoom_pcm_advance` of the offsets. -/
def zoom_pcm_playback (bs ps ch dma_off period_off : Nat) :
    List (Nat × Option Nat) × Nat × Nat × Bool :=
  let pcm_len := 4 * ch * 4
  let writes :=
    if dma_off + pcm_len ≤ bs then
      (memcpy_pcm_playback_trace ch).map
        (fun pr => (pr.1, pr.2.map (fun o => dma_off + 4 * o)))
    else
      /- wrap around at end of ring buffer: the source only logs here,
         no transcoder call is made -/
      []
  (writes, zoom_pcm_advance dma_off period_off pcm_len bs ps)

/-! ## Runtime state (struct pcm_runtime / struct pcm_substream) -/

/-- The pcm streaming states of src/pcm.c lines 40-45.  `stopping` is set
at the head of `zoom_pcm_stream_stop` and replaced by `disabled` before it
returns; in this atomic model only the final state of each operation is
observable. -/
inductive StreamState
  | disabled
  | starting
  | running
  | stopping
deriving DecidableEq, Repr

/-- `struct pcm_substream` together with the relevant fields of the
externally owned ALSA runtime it points at (`snd_pcm_lib_buffer_bytes`,
`period_size`, `channels`): per-direction position state. -/
structure PcmSubstream where
  /-- `sub->instance != NULL` -/
  instanceSet : Bool
  active : Bool
  dma_off : Nat
  period_off : Nat
  /-- `snd_pcm_lib_buffer_bytes(sub->instance)` -/
  bs : Nat
  /-- `alsa_rt->period_size` -/
  ps : Nat
  /-- `alsa_rt->channels` -/
  ch : Nat
deriving DecidableEq, Repr

/-- `struct pcm_runtime`, with the in-flight URB population of each
direction tracked as a count (instrumenting the usb anchors). -/
structure PcmRuntime where
  panic : Bool
  stream_state : StreamState
  stream_wait_cond : Bool
  playback : PcmSubstream
  capture : PcmSubstream
  outInflight : Nat
  inInflight : Nat
deriving DecidableEq, Repr

/-- The three-way dispatch on `alsa_sub->stream` (playback / capture /
anything else) used by `zoom_pcm_get_substream` and `zoom_pcm_open`. -/
inductive StreamDir
  | playback
  | capture
  | other
deriving DecidableEq, Repr

/-- `zoom_pcm_get_substream` (src/pcm.c lines 115-129): NULL on an
unrecognized direction. -/
def zoom_pcm_get_substream (rt : PcmRuntime) : StreamDir → Option PcmSubstream
  | .playback => some rt.playback
  | .capture => some rt.capture
  | .other => none

/-- `zoom_pcm_stream_stop` (src/pcm.c lines 132-159): when not already
`DISABLED`, sets `STOPPING`, drains and kills every URB of both
directions, then sets `DISABLED`; a no-op when already `DISABLED`. -/
def zoom_pcm_stream_stop (rt : PcmRuntime) : PcmRuntime :=
  if rt.stream_state ≠ StreamState.disabled then
    { rt with stream_state := StreamState.disabled, outInflight := 0, inInflight := 0 }
  else rt

/-- `zoom_interface_init` (src/pcm.c lines 161-182).  `ok1`/`ok2` are
oracles for the two `usb_set_interface` calls (interface 1 alt 3 and
interface 2 alt 3); a failure stops the stream and yields `-EIO`. -/
def zoom_interface_init (rt : PcmRuntime) (ok1 ok2 : Bool) : PcmRuntime × Int :=
  if ok1 = false then (zoom_pcm_stream_stop rt, -EIO_errno)
  else if ok2 = false then (zoom_pcm_stream_stop rt, -EIO_errno)
  else (rt, 0)

/-! ## Completion handlers (src/pcm.c lines 366-404 and 406-453)

The handlers run in completion context.  An invocation is parameterized by
the URB status and by an oracle `resubmitOk` for the final
`usb_submit_urb`.  The returned Boolean reports whether the URB was
resubmitted.  URB buffer contents are not part of `PcmRuntime`; the data
movement of an invocation is given by `zoom_pcm_capture` /
`zoom_pcm_playback` above (the silence `memset` of an inactive playback
substream likewise only touches the URB buffer).
-/

/-- The transport-fatal status check shared by both handlers:
`-ENOENT` (unlinked), `-ENODEV` (device removed), `-ECONNRESET`
(unlinked), `-ESHUTDOWN` (device disabled). -/
def fatal_urb_status (status : Int) : Bool :=
  status == -ENOENT || status == -ENODEV || status == -ECONNRESET || status == -ESHUTDOWN

/-- `zoom_pcm_in_urb_handler` (src/pcm.c lines 366-404). -/
def zoom_pcm_in_urb_handler (rt : PcmRuntime) (status : Int) (resubmitOk : Bool) :
    PcmRuntime × Bool :=
  if rt.panic ∨ rt.stream_state = StreamState.stopping then (rt, false)
  else if fatal_urb_status status then ({ rt with panic := true }, false)
  else
    let sub := rt.capture
    let rt1 :=
      if sub.active then
        let adv := zoom_pcm_capture sub.bs sub.ps sub.ch sub.dma_off sub.period_off
        { rt with capture := { sub with dma_off := adv.2.1, period_off := adv.2.2.1 } }
      else rt
    if resubmitOk then (rt1, true) else ({ rt1 with panic := true }, false)

/-- `zoom_pcm_out_urb_handler` (src/pcm.c lines 406-453). -/
def zoom_pcm_out_urb_handler (rt : PcmRuntime) (status : Int) (resubmitOk : Bool) :
    PcmRuntime × Bool :=
  if rt.panic ∨ rt.stream_state = StreamState.stopping then (rt, false)
  else if fatal_urb_status status then ({ rt with panic := true }, false)
  else
    let rt1 :=
      if rt.stream_state = StreamState.starting then
        { rt with stream_wait_cond := true }
      else rt
    let sub := rt1.playback
    let rt2 :=
      if sub.active then
        let adv := zoom_pcm_playback sub.bs sub.ps sub.ch sub.dma_off sub.period_off
        { rt1 with playback := { sub with dma_off := adv.2.1, period_off := adv.2.2.1 } }
      else rt1 /- inactive: the URB buffer is filled with silence -/
    if resubmitOk then (rt2, true) else ({ rt2 with panic := true }, false)

/-- One transfer-completion event: direction, URB status and the oracle
for the resubmission attempt inside the handler. -/
inductive UrbEvent
  | outC (status : Int) (resubmitOk : Bool)
  | inC (status : Int) (resubmitOk : Bool)
deriving Repr

/-- Applying a completion event: the completed URB leaves the in-flight
population, the handler runs, and a resubmission re-enters it. -/
def applyUrbEvent (rt : PcmRuntime) : UrbEvent → PcmRuntime
  | .outC st rOk =>
    let rt0 := { rt with outInflight := rt.outInflight - 1 }
    let r := zoom_pcm_out_urb_handler rt0 st rOk
    if r.2 then { r.1 with outInflight := r.1.outInflight + 1 } else r.1
  | .inC st rOk =>
    let rt0 := { rt with inInflight := rt.inInflight - 1 }
    let r := zoom_pcm_in_urb_handler rt0 st rOk
    if r.2 then { r.1 with inInflight := r.1.inInflight + 1 } else r.1

/-! ## zoom_pcm_stream_start (src/pcm.c lines 185-238) -/

/-- The `for (i = 0; i < PCM_N_URBS; i++)` submission loop of
`zoom_pcm_stream_start`: submits out URB `i` then in URB `i`
(`subRes (2*i)` and `subRes (2*i+1)` are the `usb_submit_urb` results,
0 on success); on the first failure stops the stream and returns the
submission error.  The out buffers are zero-initialized (`memset`),
which does not appear in `PcmRuntime`. -/
def submit_urb_loop (subRes : Nat → Int) : Nat → Nat → PcmRuntime → PcmRuntime × Int
  | 0, _, rt => (rt, 0)
  | fuel + 1, i, rt =>
    if subRes (2 * i) ≠ 0 then (zoom_pcm_stream_stop rt, subRes (2 * i))
    else
      let rt1 := { rt with outInflight := rt.outInflight + 1 }
      if subRes (2 * i + 1) ≠ 0 then (zoom_pcm_stream_stop rt1, subRes (2 * i + 1))
      else
        submit_urb_loop subRes fuel (i + 1) { rt1 with inInflight := rt1.inInflight + 1 }

/-- `zoom_pcm_stream_start` (src/pcm.c lines 185-238).  `ok1`/`ok2` are the
`usb_set_interface` oracles, `subRes` the `usb_submit_urb` oracles, and
`waitEvents` the completion events that are handled while the control
thread sits in `wait_event_timeout` (an empty list models a start during
which no completion arrives before the one-second timeout).  After the
wait the code tests `rt->stream_wait_cond`: if set, the state becomes
`RUNNING` and 0 is returned; otherwise the stream is stopped and `-EIO`
returned.  Nothing ever resets `stream_wait_cond` to false. -/
def zoom_pcm_stream_start (rt : PcmRuntime) (ok1 ok2 : Bool) (subRes : Nat → Int)
    (waitEvents : List UrbEvent) : PcmRuntime × Int :=
  if rt.stream_state = StreamState.disabled then
    /- reset panic state when starting a new stream -/
    let rt0 := { rt with panic := false }
    let ini := zoom_interface_init rt0 ok1 ok2
    if ini.2 ≠ 0 then ini
    else
      let rt2 := { ini.1 with stream_state := StreamState.starting }
      let sb := submit_urb_loop subRes PCM_N_URBS 0 rt2
      if sb.2 ≠ 0 then sb
      else
        /- wait for first out urb to return -/
        let rt4 := waitEvents.foldl applyUrbEvent sb.1
        if rt4.stream_wait_cond then
          ({ rt4 with stream_state := StreamState.running }, 0)
        else
          (zoom_pcm_stream_stop rt4, -EIO_errno)
  else (rt, 0)

/-! ## ALSA callbacks (src/pcm.c lines 455-587) and zoom_pcm_abort -/

/-- `zoom_pcm_open` (src/pcm.c lines 455-487): `-EPIPE` when panicked;
installs the hardware descriptor (external), records `sub->instance` and
clears `active`; `-EINVAL` on an unrecognized direction. -/
def zoom_pcm_open (rt : PcmRuntime) (d : StreamDir) : PcmRuntime × Int :=
  if rt.panic then (rt, -EPIPE)
  else
    match d with
    | .playback =>
      ({ rt with playback := { rt.playback with instanceSet := true, active := false } }, 0)
    | .capture =>
      ({ rt with capture := { rt.capture with instanceSet := true, active := false } }, 0)
    | .other => (rt, -EINVAL)

/-- `zoom_pcm_close` (src/pcm.c lines 489-511): returns 0 when panicked;
otherwise, for a recognized direction, stops the stream and deactivates
the substream. -/
def zoom_pcm_close (rt : PcmRuntime) (d : StreamDir) : PcmRuntime × Int :=
  if rt.panic then (rt, 0)
  else
    match d with
    | .playback =>
      let rt1 := zoom_pcm_stream_stop rt
      ({ rt1 with playback := { rt1.playback with instanceSet := false, active := false } }, 0)
    | .capture =>
      let rt1 := zoom_pcm_stream_stop rt
      ({ rt1 with capture := { rt1.capture with instanceSet := false, active := false } }, 0)
    | .other => (rt, 0)

/-- `zoom_pcm_prepare` (src/pcm.c lines 513-541): `-EPIPE` when panicked,
`-ENODEV` when `zoom_pcm_get_substream` returned NULL; otherwise stops the
stream, resets the substream offsets, and (the stop having left the state
`DISABLED`) starts the stream, propagating its result. -/
def zoom_pcm_prepare (rt : PcmRuntime) (d : StreamDir) (ok1 ok2 : Bool)
    (subRes : Nat → Int) (waitEvents : List UrbEvent) : PcmRuntime × Int :=
  if rt.panic then (rt, -EPIPE)
  else
    match d with
    | .other => (rt, -ENODEV)
    | .playback =>
      let rt1 := zoom_pcm_stream_stop rt
      let rt2 := { rt1 with playback := { rt1.playback with dma_off := 0, period_off := 0 } }
      if rt2.stream_state = StreamState.disabled then
        zoom_pcm_stream_start rt2 ok1 ok2 subRes waitEvents
      else (rt2, 0)
    | .capture =>
      let rt1 := zoom_pcm_stream_stop rt
      let rt2 := { rt1 with capture := { rt1.capture with dma_off := 0, period_off := 0 } }
      if rt2.stream_state = StreamState.disabled then
        zoom_pcm_stream_start rt2 ok1 ok2 subRes waitEvents
      else (rt2, 0)

/-- `zoom_pcm_trigger` (src/pcm.c lines 543-571): `-EPIPE` when panicked,
`-ENODEV` on an unrecognized direction; `START`/`PAUSE_RELEASE` set the
substream's active flag, `STOP`/`PAUSE_PUSH` clear it (returning 0), and
any other command yields `-EINVAL`. -/
def zoom_pcm_trigger (rt : PcmRuntime) (d : StreamDir) (cmd : Nat) : PcmRuntime × Int :=
  if rt.panic then (rt, -EPIPE)
  else
    match d with
    | .other => (rt, -ENODEV)
    | .playback =>
      if cmd = SNDRV_PCM_TRIGGER_START ∨ cmd = SNDRV_PCM_TRIGGER_PAUSE_RELEASE then
        ({ rt with playback := { rt.playback with active := true } }, 0)
      else if cmd = SNDRV_PCM_TRIGGER_STOP ∨ cmd = SNDRV_PCM_TRIGGER_PAUSE_PUSH then
        ({ rt with playback := { rt.playback with active := false } }, 0)
      else (rt, -EINVAL)
    | .capture =>
      if cmd = SNDRV_PCM_TRIGGER_START ∨ cmd = SNDRV_PCM_TRIGGER_PAUSE_RELEASE then
        ({ rt with capture := { rt.capture with active := true } }, 0)
      else if cmd = SNDRV_PCM_TRIGGER_STOP ∨ cmd = SNDRV_PCM_TRIGGER_PAUSE_PUSH then
        ({ rt with capture := { rt.capture with active := false } }, 0)
      else (rt, -EINVAL)

/-- `zoom_pcm_pointer` (src/pcm.c lines 573-587): the overrun sentinel
when panicked or on an unrecognized direction, else `bytes_to_frames` of
the current `dma_off` (frame size is `4 * channels` bytes for S32). -/
def zoom_pcm_pointer (rt : PcmRuntime) (d : StreamDir) : Nat :=
  match zoom_pcm_get_substream rt d with
  | none => SNDRV_PCM_POS_XRUN
  | some sub =>
    if rt.panic then SNDRV_PCM_POS_XRUN
    else sub.dma_off / (4 * sub.ch)

/-- `zoom_pcm_abort` (src/pcm.c lines 641-652): latches the panic flag and
stops the stream. -/
def zoom_pcm_abort (rt : PcmRuntime) : PcmRuntime :=
  zoom_pcm_stream_stop { rt with panic := true }

/-- One invocation of any modeled entry point of the engine (the ALSA
callbacks, a transfer completion, or the disconnect abort), with its
oracles. -/
inductive PcmOp
  | openOp (d : StreamDir)
  | closeOp (d : StreamDir)
  | prepareOp (d : StreamDir) (ok1 ok2 : Bool) (subRes : Nat → Int) (evs : List UrbEvent)
  | triggerOp (d : StreamDir) (cmd : Nat)
  | pointerOp (d : StreamDir)
  | urbOp (ev : UrbEvent)
  | abortOp

/-- The runtime state after one entry-point invocation (return values
dropped; `zoom_pcm_pointer` does not modify the runtime). -/
def runOp (rt : PcmRuntime) : PcmOp → PcmRuntime
  | .openOp d => (zoom_pcm_open rt d).1
  | .closeOp d => (zoom_pcm_close rt d).1
  | .prepareOp d ok1 ok2 subRes evs => (zoom_pcm_prepare rt d ok1 ok2 subRes evs).1
  | .triggerOp d cmd => (zoom_pcm_trigger rt d cmd).1
  | .pointerOp _ => rt
  | .urbOp ev => applyUrbEvent rt ev
  | .abortOp => zoom_pcm_abort rt

/-! ## Helper lemmas -/

/-- `zoom_pcm_stream_stop` never touches the panic flag. -/
theorem stream_stop_panic (rt : PcmRuntime) :
    (zoom_pcm_stream_stop rt).panic = rt.panic := by
  unfold zoom_pcm_stream_stop
  split <;> rfl

/-- The submission loop never touches the panic flag. -/
theorem submit_urb_loop_panic (subRes : Nat → Int) (fuel : Nat) :
    ∀ (i : Nat) (rt : PcmRuntime),
      ((submit_urb_loop subRes fuel i rt).1).panic = rt.panic := by
  induction fuel with
  | zero => intro i rt; rfl
  | succ n ih =>
    intro i rt
    unfold submit_urb_loop
    split
    · exact stream_stop_panic _
    · split
      · exact stream_stop_panic _
      · exact ih _ _

/-- `zoom_interface_init` never touches the panic flag. -/
theorem interface_init_panic (rt : PcmRuntime) (ok1 ok2 : Bool) :
    (zoom_interface_init rt ok1 ok2).1.panic = rt.panic := by
  unfold zoom_interface_init
  split_ifs <;> simp [stream_stop_panic]

/-- Full characterization of the shared offset-advance epilogue under the
preconditions the ALSA constraints provide. -/
theorem zoom_pcm_advance_props (d p len bs ps : Nat)
    (hd : d < bs) (hlen : len ≤ bs) (hps : 0 < ps) :
    (zoom_pcm_advance d p len bs ps).1 < bs
    ∧ (zoom_pcm_advance d p len bs ps).2.1 < ps
    ∧ ((zoom_pcm_advance d p len bs ps).2.2 = true ↔ ps ≤ p + len)
    ∧ ((zoom_pcm_advance d p len bs ps).2.2 = true →
        (zoom_pcm_advance d p len bs ps).2.1 = (p + len) % ps) := by
  simp only [zoom_pcm_advance]
  split_ifs with h1 h2 h3 <;>
    refine ⟨?_, ?_, ?_, ?_⟩ <;>
    first
      | omega
      | exact Nat.mod_lt _ hps
      | simp_all

/-- Concrete runtime states used to instantiate the universally
quantified theorems below. -/
def idleSub : PcmSubstream :=
  { instanceSet := false, active := false, dma_off := 0, period_off := 0,
    bs := 1024, ps := 256, ch := 2 }

def idleRt : PcmRuntime :=
  { panic := false, stream_state := StreamState.disabled, stream_wait_cond := false,
    playback := idleSub, capture := idleSub, outInflight := 0, inInflight := 0 }

def panickedRt : PcmRuntime :=
  { panic := true, stream_state := StreamState.running, stream_wait_cond := true,
    playback := idleSub, capture := idleSub, outInflight := 4, inInflight := 4 }

/-! ## C8 -/

/-- C8: for every substream state with `dma_off < buffer_size` and
`period_off < period_size`, advancing by `len = 4 × channels × 4` bytes
(with `len ≤ buffer_size` and `len ≤ 2 × period_size`) preserves both
bounds in both directions, a period elapses iff the advanced `period_off`
reached or exceeded `period_size`, and on elapse `period_off` is reduced
modulo `period_size`. -/
theorem c8_offset_invariants (bs ps ch dma_off period_off : Nat)
    (hch : 1 ≤ ch) (hd : dma_off < bs) (hp : period_off < ps)
    (hlb : 4 * ch * 4 ≤ bs) (hlp : 4 * ch * 4 ≤ 2 * ps) :
    ((zoom_pcm_capture bs ps ch dma_off period_off).2.1 < bs
      ∧ (zoom_pcm_capture bs ps ch dma_off period_off).2.2.1 < ps
      ∧ ((zoom_pcm_capture bs ps ch dma_off period_off).2.2.2 = true
          ↔ ps ≤ period_off + 4 * ch * 4)
      ∧ ((zoom_pcm_capture bs ps ch dma_off period_off).2.2.2 = true
          → (zoom_pcm_capture bs ps ch dma_off period_off).2.2.1
              = (period_off + 4 * ch * 4) % ps))
    ∧ ((zoom_pcm_playback bs ps ch dma_off period_off).2.1 < bs
      ∧ (zoom_pcm_playback bs ps ch dma_off period_off).2.2.1 < ps
      ∧ ((zoom_pcm_playback bs ps ch dma_off period_off).2.2.2 = true
          ↔ ps ≤ period_off + 4 * ch * 4)
      ∧ ((zoom_pcm_playback bs ps ch dma_off period_off).2.2.2 = true
          → (zoom_pcm_playback bs ps ch dma_off period_off).2.2.1
              = (period_off + 4 * ch * 4) % ps)) := by
  have hps : 0 < ps := by omega
  have hcap : (zoom_pcm_capture bs ps ch dma_off period_off).2
      = zoom_pcm_advance dma_off period_off (4 * ch * 4) bs ps := rfl
  have hpb : (zoom_pcm_playback bs ps ch dma_off period_off).2
      = zoom_pcm_advance dma_off period_off (4 * ch * 4) bs ps := rfl
  rw [hcap, hpb]
  have h := zoom_pcm_advance_props dma_off period_off (4 * ch * 4) bs ps hd hlb hps
  exact ⟨h, h⟩

/-- C8 witness: buffer 1024, period 256, 2 channels (advance length 32);
from offsets (1008, 240) the advance yields `dma_off` 16, period elapsed,
`period_off` 16; the spec's second example (240 → elapsed/16 and
100 → not-elapsed/132) is checked directly alongside. -/
theorem c8_offset_invariants_witness :
    ((zoom_pcm_capture 1024 256 2 1008 240).2.2.2 = true
      ↔ 256 ≤ 240 + 4 * 2 * 4)
    ∧ (zoom_pcm_capture 1024 256 2 1008 240).2 = (16, 16, true)
    ∧ (zoom_pcm_capture 1024 256 2 100 100).2 = (132, 132, false) :=
  ⟨(c8_offset_invariants 1024 256 2 1008 240 (by decide) (by decide) (by decide)
      (by decide) (by decide)).1.2.2.1,
    by decide, by decide⟩

/-! ## C9 -/

/-- C9: `zoom_pcm_stream_stop` on an already-`DISABLED` runtime is a
no-op (the runtime is returned bit-for-bit unchanged, so no cancellation
activity is recorded), and two consecutive stops end in `DISABLED` with
the second stop having no effect. -/
theorem c9_stop_idempotent (rt : PcmRuntime) :
    (rt.stream_state = StreamState.disabled → zoom_pcm_stream_stop rt = rt)
    ∧ zoom_pcm_stream_stop (zoom_pcm_stream_stop rt) = zoom_pcm_stream_stop rt
    ∧ (zoom_pcm_stream_stop (zoom_pcm_stream_stop rt)).stream_state
        = StreamState.disabled := by
  unfold zoom_pcm_stream_stop
  by_cases h : rt.stream_state = StreamState.disabled <;> simp [h]

/-- C9 witness: stopping the concrete disabled runtime is the identity,
and a double stop from a running runtime ends disabled. -/
theorem c9_stop_idempotent_witness :
    (zoom_pcm_stream_stop idleRt = idleRt)
    ∧ (zoom_pcm_stream_stop (zoom_pcm_stream_stop panickedRt)
        = zoom_pcm_stream_stop panickedRt)
    ∧ (zoom_pcm_stream_stop (zoom_pcm_stream_stop panickedRt)).stream_state
        = StreamState.disabled :=
  ⟨(c9_stop_idempotent idleRt).1 (by decide),
    (c9_stop_idempotent panickedRt).2.1,
    (c9_stop_idempotent panickedRt).2.2⟩

/-! ## C4 -/

/-- The packet contents C4 claims `memcpy_pcm_playback` produces, per
word index `n`: the first `ch` words of each 32-word slot carry the
frame's samples; the word at index `ch` of the slot is in fact skipped
(it keeps the previous `dest` contents); the remaining words are zero. -/
def playbackExpected (dest src : Nat → Int) (ch : Nat) : Nat → Int :=
  fun n =>
    if n % 32 < ch then src (ch * (n / 32) + n % 32)
    else if n % 32 = ch then dest n
    else 0

/-- The write trace C4's amended claim ascribes to `memcpy_pcm_playback`:
for each slot `s < 4`, the `ch` samples at words `32s + c`, no write at
word `32s + ch`, and zero padding at words `32s + ch + 1 … 32s + 31`. -/
def playbackExpectedTrace (ch : Nat) : List (Nat × Option Nat) :=
  (List.range 4).flatMap (fun s =>
    (List.range ch).map (fun c => (32 * s + c, some (ch * s + c)))
      ++ (List.range (31 - ch)).map (fun j => (32 * s + (ch + 1) + j, (none : Option Nat))))

/-- C4 counterexample: for channel count 2, word 2 of slot 0 belongs to
the "remaining 32 − ch words" the claim says are zeroed, yet the encoder
never writes it: starting from a destination holding 7 everywhere, word 2
still holds 7 (≠ 0) after encoding. -/
theorem c4_counterexample :
    memcpy_pcm_playback (fun _ => 7) (fun n => (n : Int) + 1) 2 2 = 7
    ∧ ¬ memcpy_pcm_playback (fun _ => 7) (fun n => (n : Int) + 1) 2 2 = 0 :=
  ⟨by decide, by decide⟩

/-- C4 (amended): for `2 ≤ ch ≤ 4`, the encoder writes, per slot, the
frame's `ch` samples at the slot head and zero into the remaining words
of the slot EXCEPT the word at slot index `ch`, which it never writes
(that word keeps the previous destination contents); equivalently its
write trace is exactly `playbackExpectedTrace ch`. -/
theorem c4_playback_encoder (dest src : Nat → Int) (ch : Nat)
    (h2 : 2 ≤ ch) (h4 : ch ≤ 4) :
    memcpy_pcm_playback_trace ch = playbackExpectedTrace ch
    ∧ List.ofFn (fun k : Fin (PCM_URB_SIZE / 4) => memcpy_pcm_playback dest src ch k.val)
        = List.ofFn (fun k : Fin (PCM_URB_SIZE / 4) => playbackExpected dest src ch k.val) := by
  have hch : ch = 2 ∨ ch = 3 ∨ ch = 4 := by omega
  rcases hch with h | h | h <;> subst h <;> exact ⟨rfl, rfl⟩

/-- C4 witness at channel count 2 with concrete buffers. -/
theorem c4_playback_encoder_witness :
    memcpy_pcm_playback_trace 2 = playbackExpectedTrace 2
    ∧ List.ofFn (fun k : Fin (PCM_URB_SIZE / 4) =>
        memcpy_pcm_playback (fun _ => 7) (fun n => (n : Int) + 1) 2 k.val)
      = List.ofFn (fun k : Fin (PCM_URB_SIZE / 4) =>
        playbackExpected (fun _ => 7) (fun n => (n : Int) + 1) 2 k.val) :=
  c4_playback_encoder (fun _ => 7) (fun n => (n : Int) + 1) 2 (by decide) (by decide)

/-! ## C5 -/

/-- C5: encoding 4 frames of 2-channel audio (8 samples) with
`memcpy_pcm_playback` and decoding the packet with `memcpy_pcm_capture`
(channel count 2, skip 0, limit 0) yields exactly the original 8 samples,
for every source, every prior packet content `p0` and every prior
destination content `d0`; and the decoder writes exactly destination
words 0–7 (so none of the encoder's padding words reaches the output). -/
theorem c5_transcode_roundtrip (p0 d0 src : Nat → Int) :
    List.ofFn (fun k : Fin 8 =>
        memcpy_pcm_capture d0 (memcpy_pcm_playback p0 src 2) 2 0 0 k.val)
      = List.ofFn (fun k : Fin 8 => src k.val)
    ∧ (memcpy_pcm_capture_trace 2 0 0).map Prod.fst = List.range 8 :=
  ⟨rfl, by decide⟩

/-! ## C1 -/

/-- C1: evaluation of both completion-handler advances at the spec's
wraparound scenario (buffer size 1024, period size 256, 2 channels so
len = 32, `dma_off` 1008).  The capture path does write 16 bytes at the
tail (byte offsets 1008–1023, packet words 0, 1, 32, 33 = frames 0 and 1)
but then writes 24 bytes — not 16 — at the head (byte offsets 0–23, from
packet words 32, 33, 64, 65, 96, 97: frames 1, 2, 3, duplicating frame 1),
because `memcpy_pcm_capture` compares the raw packet word index `i`
against `skip/4` instead of skipping `skip` bytes of payload.  The
playback path performs no copy at all in its wrap branch (empty write
trace).  The offset update itself does match the claim:
`dma_off` becomes (1008 + 32) mod 1024 = 16 in both directions. -/
theorem c1_wraparound_divergence :
    (zoom_pcm_capture 1024 256 2 1008 240).1
      = [(1008, 0), (1012, 1), (1016, 32), (1020, 33),
         (0, 32), (4, 33), (8, 64), (12, 65), (16, 96), (20, 97)]
    ∧ (zoom_pcm_capture 1024 256 2 1008 240).2.1 = 16
    ∧ (zoom_pcm_playback 1024 256 2 1008 240).1 = []
    ∧ (zoom_pcm_playback 1024 256 2 1008 240).2.1 = 16 := by
  decide

/-! ## C10 -/

/-- C10: on a recognized direction with the runtime not panicked,
`zoom_pcm_trigger` with `START`/`PAUSE_RELEASE` returns 0 and changes
exactly the addressed substream's active flag to true, with
`STOP`/`PAUSE_PUSH` returns 0 and changes it to false (the record-update
equalities show every other field, including the other direction's
substream, the offsets and the stream state, unchanged); any other
command returns `-EINVAL` with the runtime unchanged. -/
theorem c10_trigger_effect (rt : PcmRuntime) (d : StreamDir) (cmd : Nat)
    (hpanic : rt.panic = false) :
    ((cmd = SNDRV_PCM_TRIGGER_START ∨ cmd = SNDRV_PCM_TRIGGER_PAUSE_RELEASE) →
      zoom_pcm_trigger rt StreamDir.playback cmd
        = ({ rt with playback := { rt.playback with active := true } }, 0)
      ∧ zoom_pcm_trigger rt StreamDir.capture cmd
        = ({ rt with capture := { rt.capture with active := true } }, 0))
    ∧ ((cmd = SNDRV_PCM_TRIGGER_STOP ∨ cmd = SNDRV_PCM_TRIGGER_PAUSE_PUSH) →
      zoom_pcm_trigger rt StreamDir.playback cmd
        = ({ rt with playback := { rt.playback with active := false } }, 0)
      ∧ zoom_pcm_trigger rt StreamDir.capture cmd
        = ({ rt with capture := { rt.capture with active := false } }, 0))
    ∧ (cmd ≠ SNDRV_PCM_TRIGGER_START → cmd ≠ SNDRV_PCM_TRIGGER_PAUSE_RELEASE →
       cmd ≠ SNDRV_PCM_TRIGGER_STOP → cmd ≠ SNDRV_PCM_TRIGGER_PAUSE_PUSH →
       d ≠ StreamDir.other →
      zoom_pcm_trigger rt d cmd = (rt, -EINVAL)) := by
  refine ⟨?_, ?_, ?_⟩
  · rintro (h | h) <;> subst h <;>
      simp [zoom_pcm_trigger, hpanic, SNDRV_PCM_TRIGGER_START, SNDRV_PCM_TRIGGER_STOP,
        SNDRV_PCM_TRIGGER_PAUSE_PUSH, SNDRV_PCM_TRIGGER_PAUSE_RELEASE]
  · rintro (h | h) <;> subst h <;>
      simp [zoom_pcm_trigger, hpanic, SNDRV_PCM_TRIGGER_START, SNDRV_PCM_TRIGGER_STOP,
        SNDRV_PCM_TRIGGER_PAUSE_PUSH, SNDRV_PCM_TRIGGER_PAUSE_RELEASE]
  · intro h1 h2 h3 h4 hd
    cases d with
    | other => exact absurd rfl hd
    | playback =>
      simp [zoom_pcm_trigger, hpanic, h1, h2, h3, h4]
    | capture =>
      simp [zoom_pcm_trigger, hpanic, h1, h2, h3, h4]

/-- C10 witness: concrete trigger invocations on the idle runtime. -/
theorem c10_trigger_effect_witness :
    zoom_pcm_trigger idleRt StreamDir.playback SNDRV_PCM_TRIGGER_START
      = ({ idleRt with playback := { idleRt.playback with active := true } }, 0)
    ∧ zoom_pcm_trigger idleRt StreamDir.capture SNDRV_PCM_TRIGGER_PAUSE_PUSH
      = ({ idleRt with capture := { idleRt.capture with active := false } }, 0)
    ∧ zoom_pcm_trigger idleRt StreamDir.playback 7 = (idleRt, -EINVAL) :=
  ⟨((c10_trigger_effect idleRt StreamDir.playback SNDRV_PCM_TRIGGER_START rfl).1
      (Or.inl rfl)).1,
    ((c10_trigger_effect idleRt StreamDir.capture SNDRV_PCM_TRIGGER_PAUSE_PUSH rfl).2.1
      (Or.inr rfl)).2,
    (c10_trigger_effect idleRt StreamDir.playback 7 rfl).2.2
      (by decide) (by decide) (by decide) (by decide) (by decide)⟩

/-! ## C7 -/

/-- C7 counterexample: on the non-panicked idle runtime,
`zoom_pcm_prepare` and `zoom_pcm_trigger` invoked with an unrecognized
stream direction return `-ENODEV` (−19), which is not the
invalid-argument error `-EINVAL` (−22) the claim requires. -/
theorem c7_counterexample :
    (zoom_pcm_prepare idleRt StreamDir.other true true (fun _ => 0) []).2 = -ENODEV
    ∧ (zoom_pcm_trigger idleRt StreamDir.other SNDRV_PCM_TRIGGER_START).2 = -ENODEV
    ∧ ¬ (zoom_pcm_prepare idleRt StreamDir.other true true (fun _ => 0) []).2 = -EINVAL := by
  decide

/-- C7 (amended): invalid usage has no side effects, but the error code
for an unrecognized direction differs by operation: `zoom_pcm_open`
returns `-EINVAL` while `zoom_pcm_prepare` and `zoom_pcm_trigger` return
`-ENODEV`; any of the three invoked while the panic flag is set returns
`-EPIPE`.  In every such case the runtime (substream fields, offsets and
stream state) is returned unchanged. -/
theorem c7_invalid_usage (rt : PcmRuntime) (d : StreamDir) (cmd : Nat)
    (ok1 ok2 : Bool) (subRes : Nat → Int) (evs : List UrbEvent) :
    (rt.panic = false →
      zoom_pcm_open rt StreamDir.other = (rt, -EINVAL)
      ∧ zoom_pcm_prepare rt StreamDir.other ok1 ok2 subRes evs = (rt, -ENODEV)
      ∧ zoom_pcm_trigger rt StreamDir.other cmd = (rt, -ENODEV))
    ∧ (rt.panic = true →
      zoom_pcm_open rt d = (rt, -EPIPE)
      ∧ zoom_pcm_prepare rt d ok1 ok2 subRes evs = (rt, -EPIPE)
      ∧ zoom_pcm_trigger rt d cmd = (rt, -EPIPE)) := by
  constructor
  · intro h
    exact ⟨by simp [zoom_pcm_open, h], by simp [zoom_pcm_prepare, h],
      by simp [zoom_pcm_trigger, h]⟩
  · intro h
    exact ⟨by simp [zoom_pcm_open, h], by simp [zoom_pcm_prepare, h],
      by simp [zoom_pcm_trigger, h]⟩

/-- C7 witness: the amended behavior at concrete runtimes. -/
theorem c7_invalid_usage_witness :
    zoom_pcm_open idleRt StreamDir.other = (idleRt, -EINVAL)
    ∧ zoom_pcm_trigger idleRt StreamDir.other 1 = (idleRt, -ENODEV)
    ∧ zoom_pcm_open panickedRt StreamDir.playback = (panickedRt, -EPIPE)
    ∧ zoom_pcm_trigger panickedRt StreamDir.capture 1 = (panickedRt, -EPIPE) :=
  ⟨(c7_invalid_usage idleRt StreamDir.other 1 true true (fun _ => 0) [] |>.1 rfl).1,
    (c7_invalid_usage idleRt StreamDir.other 1 true true (fun _ => 0) [] |>.1 rfl).2.2,
    (c7_invalid_usage panickedRt StreamDir.playback 1 true true (fun _ => 0) [] |>.2 rfl).1,
    (c7_invalid_usage panickedRt StreamDir.capture 1 true true (fun _ => 0) [] |>.2 rfl).2.2⟩

/-! ## C3 -/

/-- C3: the panic flag is a one-way latch.  (i)/(ii) a panicked runtime
makes both completion handlers return immediately, unchanged and without
resubmitting; (iii) a panicked runtime makes `zoom_pcm_pointer` return
the overrun sentinel; (iv) no modeled entry point (open, close, prepare,
trigger, pointer, either completion handler, abort) ever clears a set
panic flag — in particular prepare, the only caller of
`zoom_pcm_stream_start`, refuses with `-EPIPE` while panicked; (v) a
transport-fatal status latches the flag (without resubmission) in both
handlers; (vi) the one write of `false` to the flag is the fresh start:
`zoom_pcm_stream_start` from `DISABLED` leaves the flag clear. -/
theorem c3_panic_latch (rt : PcmRuntime) (status : Int) (resubmitOk : Bool)
    (d : StreamDir) (op : PcmOp) (ok1 ok2 : Bool) (subRes : Nat → Int) :
    (rt.panic = true → zoom_pcm_in_urb_handler rt status resubmitOk = (rt, false))
    ∧ (rt.panic = true → zoom_pcm_out_urb_handler rt status resubmitOk = (rt, false))
    ∧ (rt.panic = true → zoom_pcm_pointer rt d = SNDRV_PCM_POS_XRUN)
    ∧ (rt.panic = true → (runOp rt op).panic = true)
    ∧ (rt.panic = false → rt.stream_state ≠ StreamState.stopping →
        fatal_urb_status status = true →
        zoom_pcm_in_urb_handler rt status resubmitOk = ({ rt with panic := true }, false)
        ∧ zoom_pcm_out_urb_handler rt status resubmitOk = ({ rt with panic := true }, false))
    ∧ (rt.stream_state = StreamState.disabled →
        (zoom_pcm_stream_start rt ok1 ok2 subRes []).1.panic = false) := by
  refine ⟨?_, ?_, ?_, ?_, ?_, ?_⟩
  · intro h; simp [zoom_pcm_in_urb_handler, h]
  · intro h; simp [zoom_pcm_out_urb_handler, h]
  · intro h
    cases d <;> simp [zoom_pcm_pointer, zoom_pcm_get_substream, h]
  · intro h
    cases op with
    | openOp d => cases d <;> simp [runOp, zoom_pcm_open, h]
    | closeOp d => cases d <;> simp [runOp, zoom_pcm_close, h]
    | prepareOp d ok1 ok2 sr evs => cases d <;> simp [runOp, zoom_pcm_prepare, h]
    | triggerOp d cmd => cases d <;> simp [runOp, zoom_pcm_trigger, h]
    | pointerOp d => simpa [runOp] using h
    | urbOp ev =>
      cases ev with
      | outC st rOk => simp [runOp, applyUrbEvent, zoom_pcm_out_urb_handler, h]
      | inC st rOk => simp [runOp, applyUrbEvent, zoom_pcm_in_urb_handler, h]
    | abortOp =>
      simp [runOp, zoom_pcm_abort, zoom_pcm_stream_stop]
      split <;> simp
  · intro h hs hf
    constructor
    · simp [zoom_pcm_in_urb_handler, h, hs, hf]
    · simp [zoom_pcm_out_urb_handler, h, hs, hf]
  · intro h
    unfold zoom_pcm_stream_start
    simp only [h, if_true, ite_true, List.foldl_nil]
    split
    · simp [interface_init_panic]
    · split
      · simp [submit_urb_loop_panic, interface_init_panic]
      · split <;> simp [stream_stop_panic, submit_urb_loop_panic, interface_init_panic]

/-- C3 witness: the latch at concrete runtimes — a panicked runtime's
handlers are inert, its pointer reports the sentinel, abort preserves the
flag, a fresh start from `DISABLED` leaves the flag clear, and a fatal
status (−ENOENT) latches it. -/
theorem c3_panic_latch_witness :
    zoom_pcm_in_urb_handler panickedRt 0 true = (panickedRt, false)
    ∧ zoom_pcm_pointer panickedRt StreamDir.playback = SNDRV_PCM_POS_XRUN
    ∧ (runOp panickedRt PcmOp.abortOp).panic = true
    ∧ (zoom_pcm_stream_start idleRt true true (fun _ => 0) []).1.panic = false
    ∧ zoom_pcm_out_urb_handler idleRt (-ENOENT) true
        = ({ idleRt with panic := true }, false) :=
  ⟨(c3_panic_latch panickedRt 0 true StreamDir.playback PcmOp.abortOp true true
      (fun _ => 0)).1 rfl,
    (c3_panic_latch panickedRt 0 true StreamDir.playback PcmOp.abortOp true true
      (fun _ => 0)).2.2.1 rfl,
    (c3_panic_latch panickedRt 0 true StreamDir.playback PcmOp.abortOp true true
      (fun _ => 0)).2.2.2.1 rfl,
    (c3_panic_latch idleRt 0 true StreamDir.playback PcmOp.abortOp true true
      (fun _ => 0)).2.2.2.2.2 rfl,
    ((c3_panic_latch idleRt (-ENOENT) true StreamDir.playback PcmOp.abortOp true true
      (fun _ => 0)).2.2.2.2.1 rfl (by decide) (by decide)).2⟩

/-! ## C6 -/

/-- C6: starting from `DISABLED` with no transfers in flight, (i) if
either alternate-interface re-assertion fails, `zoom_pcm_stream_start`
returns `-EIO`, the state is `DISABLED` afterwards and no transfers have
been submitted, whatever completions might have raced the wait; (ii) if
the interface re-assertions and all eight submissions succeed but no
completion arrives during the wait (and the start condition was not
already stale-set), the timeout path forces a full stop: `-EIO` is
returned, the state is `DISABLED` and zero transfers remain in flight. -/
theorem c6_start_failure (rt : PcmRuntime) (ok1 ok2 : Bool) (subRes : Nat → Int)
    (waitEvents : List UrbEvent) :
    (rt.stream_state = StreamState.disabled → rt.outInflight = 0 → rt.inInflight = 0 →
      ¬(ok1 = true ∧ ok2 = true) →
      (zoom_pcm_stream_start rt ok1 ok2 subRes waitEvents).2 = -EIO_errno
      ∧ (zoom_pcm_stream_start rt ok1 ok2 subRes waitEvents).1.stream_state
          = StreamState.disabled
      ∧ (zoom_pcm_stream_start rt ok1 ok2 subRes waitEvents).1.outInflight = 0
      ∧ (zoom_pcm_stream_start rt ok1 ok2 subRes waitEvents).1.inInflight = 0)
    ∧ (rt.stream_state = StreamState.disabled → rt.stream_wait_cond = false →
      (∀ k, k < 2 * PCM_N_URBS → subRes k = 0) →
      (zoom_pcm_stream_start rt true true subRes []).2 = -EIO_errno
      ∧ (zoom_pcm_stream_start rt true true subRes []).1.stream_state
          = StreamState.disabled
      ∧ (zoom_pcm_stream_start rt true true subRes []).1.outInflight = 0
      ∧ (zoom_pcm_stream_start rt true true subRes []).1.inInflight = 0) := by
  constructor
  · intro h1 h2 h3 h4
    cases ok1 with
    | false =>
      refine ⟨?_, ?_, ?_, ?_⟩ <;>
        simp [zoom_pcm_stream_start, zoom_interface_init, zoom_pcm_stream_stop,
          h1, h2, h3, EIO_errno]
    | true =>
      cases ok2 with
      | false =>
        refine ⟨?_, ?_, ?_, ?_⟩ <;>
          simp [zoom_pcm_stream_start, zoom_interface_init, zoom_pcm_stream_stop,
            h1, h2, h3, EIO_errno]
      | true => exact absurd ⟨rfl, rfl⟩ h4
  · intro h1 hw hs
    have e0 := hs 0 (by norm_num [PCM_N_URBS])
    have e1 := hs 1 (by norm_num [PCM_N_URBS])
    have e2 := hs 2 (by norm_num [PCM_N_URBS])
    have e3 := hs 3 (by norm_num [PCM_N_URBS])
    have e4 := hs 4 (by norm_num [PCM_N_URBS])
    have e5 := hs 5 (by norm_num [PCM_N_URBS])
    have e6 := hs 6 (by norm_num [PCM_N_URBS])
    have e7 := hs 7 (by norm_num [PCM_N_URBS])
    refine ⟨?_, ?_, ?_, ?_⟩ <;>
      simp [zoom_pcm_stream_start, zoom_interface_init, zoom_pcm_stream_stop,
        submit_urb_loop, PCM_N_URBS, h1, hw, e0, e1, e2, e3, e4, e5, e6, e7, EIO_errno]

/-- C6 witness: on the concrete idle runtime, a failed first interface
re-assertion and a completion-free wait both yield `-EIO`, `DISABLED`
and zero transfers in flight. -/
theorem c6_start_failure_witness :
    ((zoom_pcm_stream_start idleRt false true (fun _ => 0) []).2 = -EIO_errno
      ∧ (zoom_pcm_stream_start idleRt false true (fun _ => 0) []).1.stream_state
          = StreamState.disabled)
    ∧ ((zoom_pcm_stream_start idleRt true true (fun _ => 0) []).2 = -EIO_errno
      ∧ (zoom_pcm_stream_start idleRt true true (fun _ => 0) []).1.outInflight = 0) :=
  ⟨⟨((c6_start_failure idleRt false true (fun _ => 0) []).1 rfl rfl rfl
        (by simp)).1,
      ((c6_start_failure idleRt false true (fun _ => 0) []).1 rfl rfl rfl
        (by simp)).2.1⟩,
    ⟨((c6_start_failure idleRt true true (fun _ => 0) []).2 rfl rfl
        (fun k _ => rfl)).1,
      ((c6_start_failure idleRt true true (fun _ => 0) []).2 rfl rfl
        (fun k _ => rfl)).2.2.1⟩⟩

/-! ## C2 -/

/-- First session: a successful start from the idle runtime during whose
wait one successful out-direction completion arrives (raising
`stream_wait_cond` while the state is `STARTING`). -/
def c2_rt1 : PcmRuntime :=
  (zoom_pcm_stream_start idleRt true true (fun _ => 0) [UrbEvent.outC 0 true]).1

/-- The runtime after the first session is stopped: back to `DISABLED`,
but `stream_wait_cond` — which nothing ever resets — is still true. -/
def c2_rt2 : PcmRuntime := zoom_pcm_stream_stop c2_rt1

/-- C2: a counter-trace.  The first start becomes `RUNNING` through a
genuine out completion; after a stop, a second `zoom_pcm_stream_start`
whose wait sees no completion event at all (empty during-wait event list)
still returns 0 and sets `STREAM_RUNNING`, because it reads the stale
`stream_wait_cond` left over from the previous session — no out-direction
transfer completed after the second start began, contradicting the
claimed invariant. -/
theorem c2_stale_start_condition :
    c2_rt1.stream_state = StreamState.running
    ∧ c2_rt2.stream_state = StreamState.disabled
    ∧ c2_rt2.stream_wait_cond = true
    ∧ (zoom_pcm_stream_start c2_rt2 true true (fun _ => 0) []).1.stream_state
        = StreamState.running
    ∧ (zoom_pcm_stream_start c2_rt2 true true (fun _ => 0) []).2 = 0 := by
  decide
